import Mathlib

/-!
Shallow embedding of `src/pz_fileio/File.py` (the `File` class of the
poziel/fileio repository) and proofs about its operations.

The filesystem is modelled as an association list from paths to text
contents plus a list of existing directories; the model has no permission
state, so `PermissionError` branches of the source are present but
unreachable.  Streams are modelled as a character position plus a closed
flag; buffering is not modelled (a read at position 0 sees the file's
current content, which matches CPython for a handle that has not been
read from yet).  Python exceptions become explicit `PyErr` values.
-/

/-- Python exception classes that the source raises or catches. -/
inductive PyErr where
  | attributeError
  | typeError
  | indexError
  | valueError
  | fileNotFoundError
  | fileExistsError
  | permissionError
  | isADirectoryError
  | notADirectoryError
  deriving DecidableEq, Repr

/-- Model filesystem: files as an association list from path to text
content (first binding wins), plus the set of existing directories. -/
structure FS where
  files : List (String × String)
  dirs : List String
  deriving DecidableEq, Repr

/-- Index one past the last slash of a character list (Python `p.rfind(sep) + 1`). -/
def lastSlashEnd (cs : List Char) : Nat :=
  (cs.foldl (fun (acc : Nat × Nat) c =>
    (acc.1 + 1, if c == '/' then acc.1 + 1 else acc.2)) ((0 : Nat), (0 : Nat))).2

/-- Drop the trailing slashes of a character list (Python `head.rstrip(sep)`). -/
def dropTrailingSlashes (cs : List Char) : List Char :=
  (cs.reverse.dropWhile (fun c => c == '/')).reverse

/-- Model of `os.path.dirname` (posixpath): the prefix up to the last slash,
with trailing slashes stripped unless the prefix is all slashes. -/
def dirOf (p : String) : String :=
  let cs := p.data
  let head := cs.take (lastSlashEnd cs)
  if head.isEmpty then ""
  else if head.all (fun c => c == '/') then String.mk head
  else String.mk (dropTrailingSlashes head)

/-- Model of `os.path.exists`: true iff the path is a file or a directory
of the model filesystem. -/
def osPathExists (fs : FS) (p : String) : Bool :=
  (fs.files.lookup p).isSome || fs.dirs.contains p

/-- Replace (or insert) the content bound to a path. -/
def setFile (fs : FS) (p c : String) : FS :=
  { fs with files := (p, c) :: fs.files.filter (fun kv => kv.1 != p) }

/-- Remove the file bound to a path. -/
def removeFile (fs : FS) (p : String) : FS :=
  { fs with files := fs.files.filter (fun kv => kv.1 != p) }

/-- Whether `open(p, "w")` succeeds in the model: `p` is not a directory and
its directory component is the working directory or an existing directory. -/
def canOpenWrite (fs : FS) (p : String) : Bool :=
  !fs.dirs.contains p && (dirOf p == "" || fs.dirs.contains (dirOf p))

/-- Model of `open(p, "w")`: truncates the file to empty, raising
`IsADirectoryError` on a directory and `FileNotFoundError` when the parent
directory does not exist. -/
def openWrite (fs : FS) (p : String) : Except PyErr FS :=
  if fs.dirs.contains p then .error .isADirectoryError
  else if dirOf p == "" || fs.dirs.contains (dirOf p) then .ok (setFile fs p "")
  else .error .fileNotFoundError

/-- Model of an open text stream: a character position and a closed flag.
The stream always refers to the owning handle's path. -/
structure FileStream where
  pos : Nat
  closed : Bool
  deriving DecidableEq, Repr

/-- Model of a `File` instance: the `Path` attribute and the `Content`
attribute (`none` models Python `None`). -/
structure File where
  Path : String
  Content : Option FileStream
  deriving DecidableEq, Repr

/-- Model of `File.Exists` (File.py lines 64-71). -/
def File.Exists (f : File) (fs : FS) : Bool :=
  osPathExists fs f.Path

/-- Whether a string starts with a slash (`b.startswith(sep)`). -/
def headIsSlash (s : String) : Bool :=
  match s.data with
  | c :: _ => c == '/'
  | [] => false

/-- Whether a string ends with a slash (`path.endswith(sep)`). -/
def lastIsSlash (s : String) : Bool :=
  s.data.getLast? == some '/'

/-- Model of `os.path.join` over the remaining segments (posixpath.join);
a `none` segment models Python `None` and raises `TypeError`. -/
def joinLoop (acc : String) : List (Option String) → Except PyErr String
  | [] => .ok acc
  | none :: _ => .error .typeError
  | some b :: rest =>
    joinLoop (if headIsSlash b then b
      else if acc == "" || lastIsSlash acc then acc ++ b
      else acc ++ "/" ++ b) rest

/-- Model of `File.__init__` (File.py lines 11-21).  `path[0]` on an empty
argument tuple raises `IndexError`; a first segment of `None` yields the
empty path, which never exists (`os.path.exists("")` is always false), so
the content handle stays absent; otherwise the segments are joined and a
read stream is opened eagerly when the path exists. -/
def initFile (segs : List (Option String)) (fs : FS) : Except PyErr File :=
  match segs with
  | [] => .error .indexError
  | none :: _ => .ok ⟨"", none⟩
  | some s0 :: rest =>
    match joinLoop s0 rest with
    | .error e => .error e
    | .ok p =>
      if osPathExists fs p then
        if fs.dirs.contains p then .error .isADirectoryError
        else .ok ⟨p, some ⟨0, false⟩⟩
      else .ok ⟨p, none⟩

/-- Model of `File.Open` (File.py lines 39-54): reopen for reading when the
path exists, else clear the handle and log "File not found". -/
def File.Open (f : File) (fs : FS) : Except PyErr (File × List String) :=
  if osPathExists fs f.Path then
    if fs.dirs.contains f.Path then .error .isADirectoryError
    else .ok ({ f with Content := some ⟨0, false⟩ }, [])
  else .ok ({ f with Content := none }, ["File not found: " ++ f.Path])

/-- Model of `os.remove`. -/
def osRemove (fs : FS) (p : String) : Except PyErr FS :=
  if (fs.files.lookup p).isSome then .ok (removeFile fs p)
  else if fs.dirs.contains p then .error .isADirectoryError
  else .error .fileNotFoundError

/-- Model of `File.Delete` (File.py lines 140-156): when the path exists the
source runs `self.Content.close()` unconditionally, which raises
`AttributeError` when `Content` is `None`; `FileNotFoundError` and
`PermissionError` from the removal are logged, everything else propagates;
when the path does not exist the method falls through to `return self`
without logging. -/
def File.Delete (f : File) (fs : FS) : Except PyErr File × FS × List String :=
  if osPathExists fs f.Path then
    match f.Content with
    | none => (.error .attributeError, fs, [])
    | some st =>
      let f1 : File := { f with Content := some { st with closed := true } }
      match osRemove fs f.Path with
      | .ok fs1 => (.ok f1, fs1, [])
      | .error .fileNotFoundError => (.ok f1, fs, ["File not found: " ++ f.Path])
      | .error .permissionError =>
        (.ok f1, fs, ["Permission error deleting file: " ++ f.Path])
      | .error e => (.error e, fs, [])
  else (.ok f, fs, [])

/-- Split a character list on slashes (Python `d.split(sep)`). -/
def splitSlashAux : List Char → List Char → List String
  | [], acc => [String.mk acc.reverse]
  | c :: cs, acc =>
    if c == '/' then String.mk acc.reverse :: splitSlashAux cs []
    else splitSlashAux cs (c :: acc)

/-- Slash-separated components of a path. -/
def splitSlash (s : String) : List String :=
  splitSlashAux s.data []

/-- Join components with slashes. -/
def joinSlash : List String → String
  | [] => ""
  | [x] => x
  | x :: xs => x ++ "/" ++ joinSlash xs

/-- Cumulative directory prefixes of a path, used by the `makedirs` model. -/
def dirChain (d : String) : List String :=
  let parts := (splitSlash d).filter (fun s => s != "")
  (List.range parts.length).map (fun i => joinSlash (parts.take (i + 1)))

/-- Model of `os.makedirs(d, exist_ok=True)`: raises `FileNotFoundError` on
the empty name (CPython `mkdir("")`), succeeds when `d` is already a
directory, raises `FileExistsError` when `d` is a file and
`NotADirectoryError` when an ancestor is a file, and otherwise creates the
whole chain. -/
def makedirs (fs : FS) (d : String) : Except PyErr FS :=
  if d == "" then .error .fileNotFoundError
  else if fs.dirs.contains d then .ok fs
  else if (fs.files.lookup d).isSome then .error .fileExistsError
  else if (dirChain d).any (fun a => (fs.files.lookup a).isSome) then
    .error .notADirectoryError
  else .ok { fs with dirs := dirChain d ++ fs.dirs }

/-- Model of `File.Create` (File.py lines 121-138): `makedirs` on the
directory component, then `open(path, "x")` with `FileExistsError`
swallowed. -/
def File.Create (f : File) (fs : FS) : Except PyErr (File × FS) :=
  match makedirs fs (dirOf f.Path) with
  | .error e => .error e
  | .ok fs1 =>
    if osPathExists fs1 f.Path then .ok (f, fs1)
    else .ok (f, setFile fs1 f.Path "")

/-- Suffix of a string from a character position (what `read()` returns
for a stream at that position). -/
def strDrop (s : String) (n : Nat) : String :=
  String.mk (s.data.drop n)

/-- Model of `File.Read` (File.py lines 173-180): `None` content is falsy so
the method returns `None`; a closed stream raises `ValueError`; otherwise
the rest of the file from the stream position is returned and the position
moves to the end. -/
def File.Read (f : File) (fs : FS) : Except PyErr (Option String × File) :=
  match f.Content with
  | none => .ok (none, f)
  | some st =>
    if st.closed then .error .valueError
    else
      let c := (fs.files.lookup f.Path).getD ""
      .ok (some (strDrop c st.pos), { f with Content := some ⟨c.length, false⟩ })

/-- Model of `File.Overwrite` (File.py lines 208-223): open in truncating
write mode and write each line followed by a newline. -/
def File.Overwrite (f : File) (lines : List String) (fs : FS) :
    Except PyErr (File × FS) :=
  match openWrite fs f.Path with
  | .error e => .error e
  | .ok fs1 => .ok (f, setFile fs1 f.Path (String.join (lines.map (fun l => l ++ "\n"))))

/-- Model of the Python values that reach `WriteAsJson` and `WriteAsCsv`:
the JSON-relevant builtin types plus `vtuple` (a non-list sequence) and
`vobj` (a non-serializable object such as a raw binary stream).  Floats
carry their `repr` literal, which is all the serializer uses. -/
inductive PyVal where
  | vnone
  | vbool (b : Bool)
  | vint (n : Int)
  | vfloat (lit : String)
  | vstr (s : String)
  | vlist (xs : List PyVal)
  | vtuple (xs : List PyVal)
  | vdict (kvs : List (String × PyVal))
  | vobj

/-- Indentation of `i` spaces. -/
def pad (i : Nat) : String :=
  String.mk (List.replicate i ' ')

/-- Lowercase hexadecimal digit. -/
def hexDigit (n : Nat) : Char :=
  if n < 10 then Char.ofNat (48 + n) else Char.ofNat (87 + n)

/-- Escape of one character in a JSON string literal with
`ensure_ascii=False`: only the quote, the backslash and control characters
are escaped; everything else is emitted literally. -/
def jsonEscChar (c : Char) : String :=
  if c == '"' then "\\\""
  else if c == '\\' then "\\\\"
  else if c == '\n' then "\\n"
  else if c == '\r' then "\\r"
  else if c == '\t' then "\\t"
  else if c.toNat == 8 then "\\b"
  else if c.toNat == 12 then "\\f"
  else if c.toNat < 32 then
    "\\u00" ++ String.mk [hexDigit (c.toNat / 16), hexDigit (c.toNat % 16)]
  else String.mk [c]

/-- JSON string literal for a Python string (`ensure_ascii=False`). -/
def jsonStrLit (s : String) : String :=
  "\"" ++ String.join (s.data.map jsonEscChar) ++ "\""

mutual

/-- Output of `json.dump(v, f, ensure_ascii=False, indent=4)` at absolute
indent column `i`, together with a success flag: on a non-serializable
value the encoder raises `TypeError`, and the first component is exactly
the chunks already written to the file at that point. -/
def emit : PyVal → Nat → String × Bool
  | .vnone, _ => ("null", true)
  | .vbool true, _ => ("true", true)
  | .vbool false, _ => ("false", true)
  | .vint n, _ => (toString n, true)
  | .vfloat lit, _ => (lit, true)
  | .vstr s, _ => (jsonStrLit s, true)
  | .vlist [], _ => ("[]", true)
  | .vlist (x :: xs), i =>
    let inner := emitItems (x :: xs) (i + 4) true
    if inner.2 then ("[" ++ inner.1 ++ "\n" ++ pad i ++ "]", true)
    else ("[" ++ inner.1, false)
  | .vtuple [], _ => ("[]", true)
  | .vtuple (x :: xs), i =>
    let inner := emitItems (x :: xs) (i + 4) true
    if inner.2 then ("[" ++ inner.1 ++ "\n" ++ pad i ++ "]", true)
    else ("[" ++ inner.1, false)
  | .vdict [], _ => ("\x7b\x7d", true)
  | .vdict (kv :: kvs), i =>
    let inner := emitPairs (kv :: kvs) (i + 4) true
    if inner.2 then ("\x7b" ++ inner.1 ++ "\n" ++ pad i ++ "\x7d", true)
    else ("\x7b" ++ inner.1, false)
  | .vobj, _ => ("", false)

/-- Array items: each item is preceded by a newline and its indentation
(with a comma separator after the first); on a failing item the chunks
written so far are kept and emission stops. -/
def emitItems : List PyVal → Nat → Bool → String × Bool
  | [], _, _ => ("", true)
  | x :: xs, i, first =>
    let sep := (if first then "\n" else ",\n") ++ pad i
    let ex := emit x i
    if ex.2 then
      let rest := emitItems xs i false
      (sep ++ ex.1 ++ rest.1, rest.2)
    else (sep ++ ex.1, false)

/-- Object members, analogous to `emitItems` with `": "` as key separator. -/
def emitPairs : List (String × PyVal) → Nat → Bool → String × Bool
  | [], _, _ => ("", true)
  | (k, v) :: kvs, i, first =>
    let sep := (if first then "\n" else ",\n") ++ pad i
    let ev := emit v i
    if ev.2 then
      let rest := emitPairs kvs i false
      (sep ++ jsonStrLit k ++ ": " ++ ev.1 ++ rest.1, rest.2)
    else (sep ++ jsonStrLit k ++ ": " ++ ev.1, false)

end

/-- Top-level `isinstance` guard of `WriteAsJson` (File.py line 248): the
tuple of accepted classes is `(dict, list, str, int, float, bool,
NoneType)` — a tuple value is rejected even though it is a sequence. -/
def jsonOkTop : PyVal → Bool
  | .vdict _ => true
  | .vlist _ => true
  | .vstr _ => true
  | .vint _ => true
  | .vfloat _ => true
  | .vbool _ => true
  | .vnone => true
  | .vtuple _ => false
  | .vobj => false

/-- Model of `File.WriteAsJson` (File.py lines 237-255): the guard raises
`TypeError` before the file is touched; otherwise the file is opened in
truncating write mode and the encoder's chunks are written as produced, so
a nested non-serializable element raises `TypeError` after the file has
already been overwritten with the partial output. -/
def File.WriteAsJson (f : File) (v : PyVal) (fs : FS) : Except PyErr File × FS :=
  if jsonOkTop v then
    match openWrite fs f.Path with
    | .error e => (.error e, fs)
    | .ok fs1 =>
      let r := emit v 0
      if r.2 then (.ok f, setFile fs1 f.Path r.1)
      else (.error .typeError, setFile fs1 f.Path r.1)
  else (.error .typeError, fs)

/-- JSON whitespace. -/
def isJsonWs (c : Char) : Bool :=
  c == ' ' || c == '\t' || c == '\n' || c == '\r'

/-- Skip JSON whitespace. -/
def skipWs : List Char → List Char
  | [] => []
  | c :: cs => if isJsonWs c then skipWs cs else c :: cs

/-- Value of a hexadecimal digit. -/
def hexVal (c : Char) : Option Nat :=
  if '0' ≤ c && c ≤ '9' then some (c.toNat - 48)
  else if 'a' ≤ c && c ≤ 'f' then some (c.toNat - 87)
  else if 'A' ≤ c && c ≤ 'F' then some (c.toNat - 55)
  else none

/-- Single-character JSON escapes, as a lookup table from the escape letter
to the character it denotes. -/
def jsonEscTable : List (Char × Char) :=
  [('"', '"'), ('\\', '\\'), ('/', '/'), ('b', Char.ofNat 8),
   ('f', Char.ofNat 12), ('n', '\n'), ('r', '\r'), ('t', '\t')]

/-- Decoded character of a single-character JSON escape. -/
def jsonUnescape (c : Char) : Option Char :=
  jsonEscTable.lookup c

/-- Scan a JSON string body after the opening quote, returning the decoded
characters and the rest of the input.  Surrogate pairs are not modelled. -/
def scanStr : List Char → Option (List Char × List Char)
  | [] => none
  | '"' :: cs => some ([], cs)
  | '\\' :: 'u' :: a :: b :: c :: d :: cs =>
    match hexVal a, hexVal b, hexVal c, hexVal d with
    | some ha, some hb, some hc, some hd =>
      (scanStr cs).map (fun r =>
        (Char.ofNat (((ha * 16 + hb) * 16 + hc) * 16 + hd) :: r.1, r.2))
    | _, _, _, _ => none
  | '\\' :: e :: cs =>
    match jsonUnescape e with
    | some c => (scanStr cs).map (fun r => (c :: r.1, r.2))
    | none => none
  | c :: cs =>
    if c.toNat < 32 then none
    else (scanStr cs).map (fun r => (c :: r.1, r.2))

/-- Decimal digit test. -/
def isDigitCh (c : Char) : Bool :=
  '0' ≤ c && c ≤ '9'

/-- Longest digit prefix. -/
def spanDigits : List Char → List Char × List Char
  | [] => ([], [])
  | c :: cs =>
    if isDigitCh c then
      let r := spanDigits cs
      (c :: r.1, r.2)
    else ([], c :: cs)

/-- Digits to a natural number. -/
def digitsToNat (ds : List Char) : Nat :=
  ds.foldl (fun acc c => acc * 10 + (c.toNat - 48)) 0

/-- Parse the integer part of a JSON number after the optional sign: `0` or
a nonzero digit followed by digits. -/
def parseIntPart : List Char → Option (List Char × List Char)
  | [] => none
  | c :: cs =>
    if c == '0' then some (['0'], cs)
    else if isDigitCh c then
      let r := spanDigits cs
      some (c :: r.1, r.2)
    else none

/-- Parse an optional fraction part, returning its literal characters. -/
def parseFracPart : List Char → List Char × List Char
  | '.' :: cs =>
    match spanDigits cs with
    | ([], _) => ([], '.' :: cs)
    | (ds, rest) => ('.' :: ds, rest)
  | cs => ([], cs)

/-- Parse an optional exponent part, returning its literal characters. -/
def parseExpPart : List Char → List Char × List Char
  | c :: cs =>
    if c == 'e' || c == 'E' then
      match cs with
      | s :: cs2 =>
        if s == '+' || s == '-' then
          match spanDigits cs2 with
          | ([], _) => ([], c :: s :: cs2)
          | (ds, rest) => (c :: s :: ds, rest)
        else
          match spanDigits cs with
          | ([], _) => ([], c :: cs)
          | (ds, rest) => (c :: ds, rest)
      | [] => ([], [c])
    else ([], c :: cs)
  | [] => ([], [])

/-- Parse a JSON number: an integer becomes `vint`, a number with fraction
or exponent becomes `vfloat` carrying its literal. -/
def parseNum (cs : List Char) : Option (PyVal × List Char) :=
  let (sign, cs1) : String × List Char :=
    match cs with
    | '-' :: rest => ("-", rest)
    | _ => ("", cs)
  match parseIntPart cs1 with
  | none => none
  | some (ip, cs2) =>
    let (fp, cs3) := parseFracPart cs2
    let (ep, cs4) := parseExpPart cs3
    if fp.isEmpty && ep.isEmpty then
      let n : Int := Int.ofNat (digitsToNat ip)
      some (.vint (if sign == "-" then -n else n), cs4)
    else
      some (.vfloat (sign ++ String.mk ip ++ String.mk fp ++ String.mk ep), cs4)

mutual

/-- Fuel-based recursive-descent parser for a JSON value, modelling the
grammar accepted by `json.loads` (the `NaN`/`Infinity` extensions are not
modelled). -/
def parseVal : Nat → List Char → Option (PyVal × List Char)
  | 0, _ => none
  | fuel + 1, cs0 =>
    match skipWs cs0 with
    | 'n' :: 'u' :: 'l' :: 'l' :: cs => some (.vnone, cs)
    | 't' :: 'r' :: 'u' :: 'e' :: cs => some (.vbool true, cs)
    | 'f' :: 'a' :: 'l' :: 's' :: 'e' :: cs => some (.vbool false, cs)
    | '"' :: cs => (scanStr cs).map (fun r => (.vstr (String.mk r.1), r.2))
    | '[' :: cs =>
      (match skipWs cs with
      | ']' :: cs2 => some (.vlist [], cs2)
      | cs2 => (parseItems fuel cs2).map (fun r => (.vlist r.1, r.2)))
    | c :: cs =>
      if c == Char.ofNat 123 then
        match skipWs cs with
        | c2 :: cs2 =>
          if c2 == Char.ofNat 125 then some (.vdict [], cs2)
          else (parseMembers fuel (c2 :: cs2)).map (fun r => (.vdict r.1, r.2))
        | [] => none
      else if c == '-' || isDigitCh c then parseNum (c :: cs)
      else none
    | [] => none

/-- Parse one or more comma-separated array items up to the closing bracket. -/
def parseItems : Nat → List Char → Option (List PyVal × List Char)
  | 0, _ => none
  | fuel + 1, cs =>
    match parseVal fuel cs with
    | none => none
    | some (v, rest) =>
      match skipWs rest with
      | ',' :: rest2 => (parseItems fuel rest2).map (fun r => (v :: r.1, r.2))
      | ']' :: rest2 => some ([v], rest2)
      | _ => none

/-- Parse one or more comma-separated object members up to the closing brace. -/
def parseMembers : Nat → List Char → Option (List (String × PyVal) × List Char)
  | 0, _ => none
  | fuel + 1, cs =>
    match skipWs cs with
    | '"' :: cs1 =>
      match scanStr cs1 with
      | none => none
      | some (k, cs2) =>
        match skipWs cs2 with
        | ':' :: cs3 =>
          match parseVal fuel cs3 with
          | none => none
          | some (v, rest) =>
            match skipWs rest with
            | ',' :: rest2 =>
              (parseMembers fuel rest2).map (fun r => ((String.mk k, v) :: r.1, r.2))
            | c :: rest2 =>
              if c == Char.ofNat 125 then some ([(String.mk k, v)], rest2)
              else none
            | [] => none
        | _ => none
    | _ => none

end

/-- Model of `json.loads`: parse one value, then require only whitespace to
remain. -/
def jsonLoads (s : String) : Option PyVal :=
  let cs := s.data
  match parseVal (cs.length + 1) cs with
  | some (v, rest) => if (skipWs rest).isEmpty then some v else none
  | none => none

/-- Model of `File.ReadAsJson` (File.py lines 225-235): `json.load` first
calls `self.Content.read()`, so an absent handle raises `AttributeError`
and a closed one raises `ValueError` — only `JSONDecodeError` is caught
and converted to `None`. -/
def File.ReadAsJson (f : File) (fs : FS) : Except PyErr PyVal × File :=
  match f.Content with
  | none => (.error .attributeError, f)
  | some st =>
    if st.closed then (.error .valueError, f)
    else
      let c := (fs.files.lookup f.Path).getD ""
      let f1 : File := { f with Content := some ⟨c.length, false⟩ }
      match jsonLoads (strDrop c st.pos) with
      | some v => (.ok v, f1)
      | none => (.ok .vnone, f1)

/-- Conversion `str(field)` applied by `csv.writer` to each field; `None`
is written as the empty string.  The reprs of container and object fields
are not modelled precisely (no claim exercises them). -/
def csvField : PyVal → String
  | .vstr s => s
  | .vint n => toString n
  | .vbool true => "True"
  | .vbool false => "False"
  | .vfloat lit => lit
  | .vnone => ""
  | _ => "<object>"

/-- QUOTE_MINIMAL: a field is quoted iff it contains the delimiter, the
quote character, or a line-terminator character. -/
def csvNeedsQuote (s : String) : Bool :=
  s.data.any (fun c => c == ',' || c == '"' || c == '\r' || c == '\n')

/-- Quote a field when needed, doubling embedded quote characters. -/
def csvQuoteField (s : String) : String :=
  if csvNeedsQuote s then
    "\"" ++ String.join (s.data.map (fun c => if c == '"' then "\"\"" else String.mk [c])) ++ "\""
  else s

/-- One CSV record as written by `csv.writer` with the default dialect:
comma-delimited fields terminated by CRLF. -/
def csvWriteRow : PyVal → String
  | .vlist fields =>
    String.intercalate "," (fields.map (fun fld => csvQuoteField (csvField fld))) ++ "\r\n"
  | _ => ""

/-- File content produced by `writer.writerows`. -/
def csvRender (rows : List PyVal) : String :=
  String.join (rows.map csvWriteRow)

/-- Scan a quoted CSV field after the opening quote; a doubled quote is a
literal quote.  An unterminated quote is a parse failure (the `csv.Error`
path). -/
def csvQuoted : List Char → Option (List Char × List Char)
  | [] => none
  | '"' :: '"' :: cs => (csvQuoted cs).map (fun r => ('"' :: r.1, r.2))
  | '"' :: cs => some ([], cs)
  | c :: cs => (csvQuoted cs).map (fun r => (c :: r.1, r.2))

/-- Scan an unquoted CSV field: everything up to a delimiter or line end. -/
def csvUnquoted : List Char → List Char × List Char
  | [] => ([], [])
  | c :: cs =>
    if c == ',' || c == '\r' || c == '\n' then ([], c :: cs)
    else
      let r := csvUnquoted cs
      (c :: r.1, r.2)

/-- Parse one CSV field, quoted or unquoted. -/
def csvOneField : List Char → Option (String × List Char)
  | '"' :: cs => (csvQuoted cs).map (fun r => (String.mk r.1, r.2))
  | cs => some (String.mk (csvUnquoted cs).1, (csvUnquoted cs).2)

/-- Parse the comma-separated fields of one record up to and including its
line terminator (CRLF, LF, CR or end of data). -/
def csvFields : Nat → List Char → Option (List String × List Char)
  | 0, _ => none
  | fuel + 1, cs =>
    match csvOneField cs with
    | none => none
    | some (fld, rest) =>
      match rest with
      | ',' :: rest2 => (csvFields fuel rest2).map (fun r => (fld :: r.1, r.2))
      | '\r' :: '\n' :: rest2 => some ([fld], rest2)
      | '\n' :: rest2 => some ([fld], rest2)
      | '\r' :: rest2 => some ([fld], rest2)
      | [] => some ([fld], [])
      | _ => none

/-- Parse all CSV records; a blank line yields an empty record, matching
`csv.reader`. -/
def csvRecords : Nat → List Char → Option (List (List String))
  | 0, _ => none
  | _, [] => some []
  | fuel + 1, '\r' :: '\n' :: cs => (csvRecords fuel cs).map (fun rs => [] :: rs)
  | fuel + 1, '\n' :: cs => (csvRecords fuel cs).map (fun rs => [] :: rs)
  | fuel + 1, '\r' :: cs => (csvRecords fuel cs).map (fun rs => [] :: rs)
  | fuel + 1, cs =>
    match csvFields (cs.length + 1) cs with
    | none => none
    | some (r, rest) => (csvRecords fuel rest).map (fun rs => r :: rs)

/-- Model of `csv.reader` over a whole file content. -/
def csvParse (s : String) : Option (List (List String)) :=
  csvRecords (s.data.length + 1) s.data

/-- Model of `File.ReadAsCsv` (File.py lines 257-270): opens the path
fresh; `FileNotFoundError` and `csv.Error` are logged and become `None`;
anything else (a directory at the path) propagates. -/
def File.ReadAsCsv (f : File) (fs : FS) :
    Except PyErr (Option (List (List String))) × List String :=
  match fs.files.lookup f.Path with
  | some c =>
    match csvParse c with
    | some rows => (.ok (some rows), [])
    | none => (.ok none, ["Error reading file as CSV: " ++ f.Path])
  | none =>
    if fs.dirs.contains f.Path then (.error .isADirectoryError, [])
    else (.ok none, ["Error reading file as CSV: " ++ f.Path])

/-- Row guard of `WriteAsCsv` (File.py line 282): `isinstance(row, list)`. -/
def isPyList : PyVal → Bool
  | .vlist _ => true
  | _ => false

/-- Predicate written from the spec's words for `WriteAsCsv`/`WriteAsJson`:
a Python *sequence* (list, tuple or string).  Used only to compare the
spec's acceptance condition against the source's `isinstance(row, list)`
guard. -/
def isPySequence : PyVal → Bool
  | .vlist _ => true
  | .vtuple _ => true
  | .vstr _ => true
  | _ => false

/-- Model of `File.WriteAsCsv` (File.py lines 272-292): `TypeError` unless
every row is a `list`; a `FileNotFoundError` from the open is logged and
leaves the file unchanged; otherwise all rows are written, overwriting the
file. -/
def File.WriteAsCsv (f : File) (rows : List PyVal) (fs : FS) :
    Except PyErr File × FS × List String :=
  if rows.all isPyList then
    match openWrite fs f.Path with
    | .error .fileNotFoundError => (.ok f, fs, ["Error writing file as CSV: " ++ f.Path])
    | .error e => (.error e, fs, [])
    | .ok fs1 => (.ok f, setFile fs1 f.Path (csvRender rows), [])
  else (.error .typeError, fs, [])

/-- UTF-8 bytes of one character (what reading the file in binary mode
yields for text written with UTF-8 encoding). -/
def utf8Char (c : Char) : List Nat :=
  let n := c.toNat
  if n < 128 then [n]
  else if n < 2048 then [192 + n / 64, 128 + n % 64]
  else if n < 65536 then [224 + n / 4096, 128 + (n / 64) % 64, 128 + n % 64]
  else [240 + n / 262144, 128 + (n / 4096) % 64, 128 + (n / 64) % 64, 128 + n % 64]

/-- UTF-8 bytes of a file's text content. -/
def utf8Bytes (s : String) : List Nat :=
  (s.data.map utf8Char).flatten

/-- Successive chunks produced by `iter(lambda: f.read(4096), b"")`. -/
def chunks4096 (l : List Nat) : List (List Nat) :=
  match l with
  | [] => []
  | x :: xs => ((x :: xs).take 4096) :: chunks4096 (xs.drop 4095)
termination_by l.length
decreasing_by
  simp only [List.length_drop, List.length_cons]
  omega

/-- Bytes fed to the hasher by the chunked update loop of `File.Hash`. -/
def hashFeed (bytes : List Nat) : List Nat :=
  (chunks4096 bytes).foldl (fun acc ch => acc ++ ch) []

/-- Algorithm names guaranteed by `hashlib.new`; an unknown name raises
`ValueError`.  Modelled from the spec: §6 says any digest algorithm name
accepted by the provider, e.g. "sha256", "md5", "sha1". -/
def supportedAlgs : List String :=
  ["md5", "sha1", "sha224", "sha256", "sha384", "sha512"]

/-- Model of the external hashlib provider: a fixed deterministic function
of the algorithm name and the bytes fed to the hasher.  The concrete
compression function is outside the repository, so an arbitrary fixed
computable function stands in for it; only its determinism matters here. -/
def digestFun (alg : String) (data : List Nat) : String :=
  toString ((utf8Bytes alg ++ data).foldl (fun a b => (a * 131 + b) % 1000000007) 7)

/-- Model of `File.Hash` (File.py lines 306-332): missing file is logged
and yields `None`; the content is read in 4096-byte chunks and fed to the
named digest; an unknown algorithm raises `ValueError`. -/
def File.Hash (f : File) (fs : FS) (alg : String) :
    Except PyErr (Option String) × List String :=
  if osPathExists fs f.Path then
    if fs.dirs.contains f.Path then (.error .isADirectoryError, [])
    else
      match fs.files.lookup f.Path with
      | none => (.ok none, ["File not found: " ++ f.Path])
      | some c =>
        if supportedAlgs.contains alg then
          (.ok (some (digestFun alg (hashFeed (utf8Bytes c)))), [])
        else (.error .valueError, [])
  else (.ok none, ["File not found: " ++ f.Path])

theorem lookup_setFile (fs : FS) (p c : String) :
    (setFile fs p c).files.lookup p = some c := by
  simp [setFile, List.lookup]

theorem dirs_setFile (fs : FS) (p c : String) :
    (setFile fs p c).dirs = fs.dirs := by
  simp [setFile]

/-- C1 (corrected): `Delete()` returns the handle without raising — and
without logging — when the path does not exist; when the path exists as a
file and a content handle is present, the handle is closed before the
removal and the handle is returned; but when the path exists while the
content handle is absent, `Delete()` raises `AttributeError` from
`self.Content.close()` instead of returning. -/
theorem delete_contract (f : File) (fs : FS) :
    (osPathExists fs f.Path = false → File.Delete f fs = (.ok f, fs, [])) ∧
    (∀ st, f.Content = some st → (fs.files.lookup f.Path).isSome = true →
      File.Delete f fs =
        (.ok { f with Content := some { st with closed := true } },
          removeFile fs f.Path, [])) ∧
    (osPathExists fs f.Path = true → f.Content = none →
      File.Delete f fs = (.error .attributeError, fs, [])) := by
  refine ⟨?_, ?_, ?_⟩
  · intro h
    simp [File.Delete, h]
  · intro st hc hl
    have hex : osPathExists fs f.Path = true := by
      simp [osPathExists, hl]
    simp [File.Delete, hex, hc, osRemove, hl]
  · intro hex hc
    simp [File.Delete, hex, hc]

/-- C1 counterexample: the path exists but the content handle is absent, so
`Delete()` raises `AttributeError` — the claim that `Delete()` never raises
is false. -/
theorem delete_claim_counterexample :
    File.Delete ⟨"f", none⟩ ⟨[("f", "x")], []⟩ =
      (.error .attributeError, ⟨[("f", "x")], []⟩, []) := by
  rfl

/-- Witness for `delete_contract` at a concrete existing file with an open
handle. -/
theorem delete_contract_witness :
    (⟨"g", some ⟨0, false⟩⟩ : File).Content = some ⟨0, false⟩ ∧
    ((⟨[("g", "x")], []⟩ : FS).files.lookup "g").isSome = true ∧
    File.Delete ⟨"g", some ⟨0, false⟩⟩ ⟨[("g", "x")], []⟩ =
      (.ok ⟨"g", some ⟨0, true⟩⟩, removeFile ⟨[("g", "x")], []⟩ "g", []) :=
  ⟨rfl, rfl,
    (delete_contract ⟨"g", some ⟨0, false⟩⟩ ⟨[("g", "x")], []⟩).2.1 ⟨0, false⟩ rfl rfl⟩

/-- C2 (corrected): construction with zero segments raises `IndexError`
(`path[0]` on an empty argument tuple) instead of yielding the empty
string; a first segment of `None` yields the empty path with the content
handle absent; with a leading string segment the segments are joined and a
text read stream is opened eagerly exactly when the joined path exists. -/
theorem init_contract :
    (∀ fs, initFile [] fs = .error .indexError) ∧
    (∀ fs rest, initFile (none :: rest) fs = .ok ⟨"", none⟩) ∧
    (∀ fs s0 rest p, joinLoop s0 rest = .ok p → fs.dirs.contains p = false →
      initFile (some s0 :: rest) fs =
        .ok ⟨p, if osPathExists fs p then some ⟨0, false⟩ else none⟩) := by
  refine ⟨fun fs => rfl, fun fs rest => rfl, ?_⟩
  intro fs s0 rest p hj hd
  have hd' : p ∉ fs.dirs := by simpa using hd
  cases h : osPathExists fs p with
  | true => simp [initFile, hj, h, hd']
  | false => simp [initFile, hj, h]

/-- C2 counterexample: with no segments at all, construction raises
`IndexError` rather than producing a handle with the empty path. -/
theorem init_claim_counterexample :
    initFile [] ⟨[], []⟩ = .error .indexError := by
  rfl

/-- Witness for `init_contract` at concrete segments "a" and "b". -/
theorem init_contract_witness :
    joinLoop "a" [some "b"] = .ok "a/b" ∧
    initFile [some "a", some "b"] ⟨[], []⟩ =
      .ok ⟨"a/b", if osPathExists ⟨[], []⟩ "a/b" then some ⟨0, false⟩ else none⟩ :=
  ⟨rfl, init_contract.2.2 ⟨[], []⟩ "a" [some "b"] "a/b" rfl rfl⟩

/-- C5 (corrected): when the content stream is open at position 0 and the
path is writable, `Overwrite("a", "b")` then `Read()` yields exactly
"a\nb\n"; the claim fails for handles without an open content stream
(`Read()` then returns `None`). -/
theorem overwrite_then_read (f : File) (fs : FS)
    (hc : f.Content = some ⟨0, false⟩) (hw : canOpenWrite fs f.Path = true) :
    ∃ fs1, File.Overwrite f ["a", "b"] fs = .ok (f, fs1) ∧
      File.Read f fs1 = .ok (some "a\nb\n", { f with Content := some ⟨4, false⟩ }) := by
  simp only [canOpenWrite, Bool.and_eq_true, Bool.not_eq_true'] at hw
  obtain ⟨h1, h2⟩ := hw
  have h1' : f.Path ∉ fs.dirs := by simpa using h1
  have h2' : dirOf f.Path = "" ∨ dirOf f.Path ∈ fs.dirs := by
    simpa using h2
  have ho : openWrite fs f.Path = .ok (setFile fs f.Path "") := by
    simp [openWrite, h1', h2']
  refine ⟨setFile (setFile fs f.Path "") f.Path "a\nb\n", ?_, ?_⟩
  · simp only [File.Overwrite, ho]
    rfl
  · simp only [File.Read, hc, lookup_setFile, Option.getD_some]
    rfl

/-- C5 counterexample: on a handle whose content stream is absent (the path
did not exist at construction), `Overwrite("a", "b")` succeeds but `Read()`
returns `None`, not "a\nb\n". -/
theorem overwrite_read_counterexample :
    File.Overwrite ⟨"f", none⟩ ["a", "b"] ⟨[], []⟩ =
      .ok (⟨"f", none⟩, ⟨[("f", "a\nb\n")], []⟩) ∧
    File.Read ⟨"f", none⟩ ⟨[("f", "a\nb\n")], []⟩ = .ok (none, ⟨"f", none⟩) := by
  constructor <;> rfl

/-- Witness for `overwrite_then_read` at a concrete open handle. -/
theorem overwrite_then_read_witness :
    (⟨"g", some ⟨0, false⟩⟩ : File).Content = some ⟨0, false⟩ ∧
    canOpenWrite ⟨[], []⟩ "g" = true ∧
    ∃ fs1, File.Overwrite ⟨"g", some ⟨0, false⟩⟩ ["a", "b"] ⟨[], []⟩ =
        .ok (⟨"g", some ⟨0, false⟩⟩, fs1) ∧
      File.Read ⟨"g", some ⟨0, false⟩⟩ fs1 =
        .ok (some "a\nb\n", ⟨"g", some ⟨4, false⟩⟩) :=
  ⟨rfl, rfl, overwrite_then_read ⟨"g", some ⟨0, false⟩⟩ ⟨[], []⟩ rfl rfl⟩

/-- C10 (confirmed): `ReadAsJson()` with an absent content handle raises
`AttributeError` (from `self.Content.read()` inside `json.load`) rather
than returning an absent result; only a JSON decode failure is converted
to `None`. -/
theorem readAsJson_requires_stream (f : File) (fs : FS) :
    (f.Content = none → File.ReadAsJson f fs = (.error .attributeError, f)) ∧
    (∀ st, f.Content = some st → st.closed = false →
      jsonLoads (strDrop ((fs.files.lookup f.Path).getD "") st.pos) = none →
      File.ReadAsJson f fs =
        (.ok .vnone,
          { f with Content := some ⟨((fs.files.lookup f.Path).getD "").length, false⟩ })) := by
  constructor
  · intro h
    simp [File.ReadAsJson, h]
  · intro st hc hcl hp
    simp [File.ReadAsJson, hc, hcl, hp]

/-- Witness for `readAsJson_requires_stream`: an absent handle raises, and
an open handle on non-JSON content yields `None`. -/
theorem readAsJson_requires_stream_witness :
    (⟨"f", none⟩ : File).Content = none ∧
    File.ReadAsJson ⟨"f", none⟩ ⟨[], []⟩ = (.error .attributeError, ⟨"f", none⟩) ∧
    jsonLoads (strDrop (((⟨[("g", "not json")], []⟩ : FS).files.lookup "g").getD "") 0) = none ∧
    File.ReadAsJson ⟨"g", some ⟨0, false⟩⟩ ⟨[("g", "not json")], []⟩ =
      (.ok .vnone, ⟨"g", some ⟨8, false⟩⟩) :=
  ⟨rfl, (readAsJson_requires_stream ⟨"f", none⟩ ⟨[], []⟩).1 rfl, rfl,
    (readAsJson_requires_stream ⟨"g", some ⟨0, false⟩⟩ ⟨[("g", "not json")], []⟩).2
      ⟨0, false⟩ rfl rfl rfl⟩

theorem openWrite_of_canOpenWrite (fs : FS) (p : String)
    (hw : canOpenWrite fs p = true) :
    openWrite fs p = .ok (setFile fs p "") := by
  simp only [canOpenWrite, Bool.and_eq_true, Bool.not_eq_true'] at hw
  obtain ⟨h1, h2⟩ := hw
  have h1' : p ∉ fs.dirs := by simpa using h1
  have h2' : dirOf p = "" ∨ dirOf p ∈ fs.dirs := by simpa using h2
  simp [openWrite, h1', h2']

/-- C4 (corrected): the explicit guard of `WriteAsJson` raises `TypeError`
iff the top-level type is not one of {dict, list, str, int, float, bool,
None} — a tuple, though a sequence, is rejected — and only a guard failure
leaves the file unchanged; a value whose nested elements are
non-serializable passes the guard, and the `TypeError` raised during
serialization leaves the file truncated to the partial output. -/
theorem writeAsJson_contract (f : File) (fs : FS) (v : PyVal) :
    (jsonOkTop v = false → File.WriteAsJson f v fs = (.error .typeError, fs)) ∧
    (jsonOkTop v = true → canOpenWrite fs f.Path = true → (emit v 0).2 = true →
      File.WriteAsJson f v fs =
        (.ok f, setFile (setFile fs f.Path "") f.Path (emit v 0).1)) ∧
    (jsonOkTop v = true → canOpenWrite fs f.Path = true → (emit v 0).2 = false →
      File.WriteAsJson f v fs =
        (.error .typeError, setFile (setFile fs f.Path "") f.Path (emit v 0).1)) := by
  refine ⟨?_, ?_, ?_⟩
  · intro h
    simp [File.WriteAsJson, h]
  · intro h hw he
    simp [File.WriteAsJson, h, openWrite_of_canOpenWrite fs f.Path hw, he]
  · intro h hw he
    simp [File.WriteAsJson, h, openWrite_of_canOpenWrite fs f.Path hw, he]

/-- C4 counterexample: the value {"k": <non-serializable object>} is a
mapping, yet `WriteAsJson` raises `TypeError`, and the file content is no
longer "old" afterwards — it was truncated and partially written. -/
theorem writeAsJson_claim_counterexample :
    (File.WriteAsJson ⟨"f", none⟩ (.vdict [("k", .vobj)]) ⟨[("f", "old")], []⟩).1 =
      .error .typeError ∧
    ((File.WriteAsJson ⟨"f", none⟩ (.vdict [("k", .vobj)])
        ⟨[("f", "old")], []⟩).2.files.lookup "f" == some "old") = false := by
  constructor
  · rfl
  · rfl

/-- Witness for `writeAsJson_contract` at the nested-failure clause. -/
theorem writeAsJson_contract_witness :
    jsonOkTop (.vdict [("k", PyVal.vobj)]) = true ∧
    canOpenWrite ⟨[("f", "old")], []⟩ "f" = true ∧
    (emit (.vdict [("k", PyVal.vobj)]) 0).2 = false ∧
    File.WriteAsJson ⟨"f", none⟩ (.vdict [("k", PyVal.vobj)]) ⟨[("f", "old")], []⟩ =
      (.error .typeError,
        setFile (setFile ⟨[("f", "old")], []⟩ "f" "") "f"
          (emit (.vdict [("k", PyVal.vobj)]) 0).1) :=
  ⟨rfl, rfl, rfl,
    (writeAsJson_contract ⟨"f", none⟩ ⟨[("f", "old")], []⟩
      (.vdict [("k", PyVal.vobj)])).2.2 rfl rfl rfl⟩

/-- C8 (corrected): `WriteAsCsv` raises `TypeError` unless every row is a
*list* — a tuple or string row, though a sequence, is rejected; when every
row is a list and the path is writable, all rows are written as CSV,
overwriting the file, and the handle is returned. -/
theorem writeAsCsv_contract (f : File) (fs : FS) (rows : List PyVal) :
    (rows.all isPyList = false →
      File.WriteAsCsv f rows fs = (.error .typeError, fs, [])) ∧
    (rows.all isPyList = true → canOpenWrite fs f.Path = true →
      File.WriteAsCsv f rows fs =
        (.ok f, setFile (setFile fs f.Path "") f.Path (csvRender rows), [])) := by
  constructor
  · intro h
    simp [File.WriteAsCsv, h]
  · intro h hw
    simp [File.WriteAsCsv, h, openWrite_of_canOpenWrite fs f.Path hw]

/-- C8 counterexample: a tuple row is a sequence, yet `WriteAsCsv` raises
`TypeError` because the source checks `isinstance(row, list)`. -/
theorem writeAsCsv_claim_counterexample :
    ([PyVal.vtuple [.vstr "a", .vstr "b"]].all isPySequence = true) ∧
    File.WriteAsCsv ⟨"f", none⟩ [PyVal.vtuple [.vstr "a", .vstr "b"]] ⟨[], []⟩ =
      (.error .typeError, ⟨[], []⟩, []) := by
  constructor <;> rfl

/-- Witness for `writeAsCsv_contract` at concrete list rows. -/
theorem writeAsCsv_contract_witness :
    ([PyVal.vlist [.vstr "a", .vstr "b"], PyVal.vlist [.vstr "1", .vstr "2"]].all
      isPyList = true) ∧
    canOpenWrite ⟨[], []⟩ "f" = true ∧
    File.WriteAsCsv ⟨"f", none⟩
        [PyVal.vlist [.vstr "a", .vstr "b"], PyVal.vlist [.vstr "1", .vstr "2"]]
        ⟨[], []⟩ =
      (.ok ⟨"f", none⟩,
        setFile (setFile ⟨[], []⟩ "f" "") "f"
          (csvRender [PyVal.vlist [.vstr "a", .vstr "b"],
            PyVal.vlist [.vstr "1", .vstr "2"]]), []) :=
  ⟨rfl, rfl,
    (writeAsCsv_contract ⟨"f", none⟩ ⟨[], []⟩
      [PyVal.vlist [.vstr "a", .vstr "b"], PyVal.vlist [.vstr "1", .vstr "2"]]).2 rfl rfl⟩

/-- C9 (confirmed): `Hash` depends only on the algorithm name and the
file's content — identical content yields an identical digest across
repeated calls on the same handle (the operation is a pure function of
handle and filesystem) and across two independently constructed handles
whose paths hold the same content. -/
theorem hash_deterministic (alg c : String) (f1 f2 : File) (fs1 fs2 : FS)
    (h1 : fs1.files.lookup f1.Path = some c)
    (h2 : fs2.files.lookup f2.Path = some c)
    (d1 : fs1.dirs.contains f1.Path = false)
    (d2 : fs2.dirs.contains f2.Path = false) :
    File.Hash f1 fs1 alg = File.Hash f2 fs2 alg := by
  have d1' : f1.Path ∉ fs1.dirs := by simpa using d1
  have d2' : f2.Path ∉ fs2.dirs := by simpa using d2
  simp [File.Hash, osPathExists, h1, h2, d1', d2']

/-- Witness for `hash_deterministic`: two handles with different paths and
surrounding filesystems but the same content "ab". -/
theorem hash_deterministic_witness :
    ((⟨[("x", "ab")], []⟩ : FS).files.lookup "x" = some "ab") ∧
    ((⟨[("y", "ab"), ("z", "q")], []⟩ : FS).files.lookup "y" = some "ab") ∧
    File.Hash ⟨"x", none⟩ ⟨[("x", "ab")], []⟩ "sha256" =
      File.Hash ⟨"y", some ⟨0, false⟩⟩ ⟨[("y", "ab"), ("z", "q")], []⟩ "sha256" :=
  ⟨rfl, rfl,
    hash_deterministic "sha256" "ab" ⟨"x", none⟩ ⟨"y", some ⟨0, false⟩⟩
      ⟨[("x", "ab")], []⟩ ⟨[("y", "ab"), ("z", "q")], []⟩ rfl rfl rfl rfl⟩

/-- C7 (confirmed): on a writable path, `WriteAsCsv([["a","b"],["1","2"]])`
followed by `ReadAsCsv()` returns exactly [["a","b"],["1","2"]]. -/
theorem csv_roundtrip (f : File) (fs : FS) (hw : canOpenWrite fs f.Path = true) :
    ∃ fs1, File.WriteAsCsv f
        [.vlist [.vstr "a", .vstr "b"], .vlist [.vstr "1", .vstr "2"]] fs =
        (.ok f, fs1, []) ∧
      File.ReadAsCsv f fs1 = (.ok (some [["a", "b"], ["1", "2"]]), []) := by
  refine ⟨setFile (setFile fs f.Path "") f.Path
      (csvRender [.vlist [.vstr "a", .vstr "b"], .vlist [.vstr "1", .vstr "2"]]), ?_, ?_⟩
  · simp [File.WriteAsCsv, isPyList, openWrite_of_canOpenWrite fs f.Path hw]
  · have hl := lookup_setFile (setFile fs f.Path "") f.Path
      (csvRender [.vlist [.vstr "a", .vstr "b"], .vlist [.vstr "1", .vstr "2"]])
    simp only [File.ReadAsCsv, hl]
    rfl

/-- Witness for `csv_roundtrip` at a concrete handle. -/
theorem csv_roundtrip_witness :
    canOpenWrite ⟨[], []⟩ "f" = true ∧
    ∃ fs1, File.WriteAsCsv ⟨"f", none⟩
        [.vlist [.vstr "a", .vstr "b"], .vlist [.vstr "1", .vstr "2"]] ⟨[], []⟩ =
        (.ok ⟨"f", none⟩, fs1, []) ∧
      File.ReadAsCsv ⟨"f", none⟩ fs1 = (.ok (some [["a", "b"], ["1", "2"]]), []) :=
  ⟨rfl, csv_roundtrip ⟨"f", none⟩ ⟨[], []⟩ rfl⟩

theorem strDrop_zero (s : String) : strDrop s 0 = s := rfl

theorem json_write_open_read (f : File) (fs : FS) (v : PyVal)
    (hw : canOpenWrite fs f.Path = true)
    (hok : jsonOkTop v = true) (hser : (emit v 0).2 = true)
    (hparse : jsonLoads (emit v 0).1 = some v) :
    ∃ fs1 f1, File.WriteAsJson f v fs = (.ok f, fs1) ∧
      File.Open f fs1 = .ok (f1, []) ∧
      (File.ReadAsJson f1 fs1).1 = .ok v := by
  have ho := openWrite_of_canOpenWrite fs f.Path hw
  have h1' : f.Path ∉ fs.dirs := by
    simp only [canOpenWrite, Bool.and_eq_true, Bool.not_eq_true'] at hw
    simpa using hw.1
  have hl := lookup_setFile (setFile fs f.Path "") f.Path (emit v 0).1
  refine ⟨setFile (setFile fs f.Path "") f.Path (emit v 0).1,
    { f with Content := some ⟨0, false⟩ }, ?_, ?_, ?_⟩
  · simp [File.WriteAsJson, hok, ho, hser]
  · have hex : osPathExists (setFile (setFile fs f.Path "") f.Path (emit v 0).1)
        f.Path = true := by
      simp [osPathExists, hl]
    simp [File.Open, hex, dirs_setFile, h1']
  · simp [File.ReadAsJson, hl, strDrop_zero, hparse]

/-- C3 (confirmed): for each v in {null, 42, "s", {"k": [1, 2, 3]}}, on a
writable path, `WriteAsJson(v)` then `Open()` then `ReadAsJson()` returns
a value equal to v. -/
theorem json_roundtrip (f : File) (fs : FS) (hw : canOpenWrite fs f.Path = true) :
    ∀ v ∈ [PyVal.vnone, PyVal.vint 42, PyVal.vstr "s",
        PyVal.vdict [("k", PyVal.vlist [PyVal.vint 1, PyVal.vint 2, PyVal.vint 3])]],
      ∃ fs1 f1, File.WriteAsJson f v fs = (.ok f, fs1) ∧
        File.Open f fs1 = .ok (f1, []) ∧
        (File.ReadAsJson f1 fs1).1 = .ok v := by
  intro v hv
  simp only [List.mem_cons, List.not_mem_nil, or_false] at hv
  rcases hv with rfl | rfl | rfl | rfl
  · exact json_write_open_read f fs _ hw rfl rfl rfl
  · exact json_write_open_read f fs _ hw rfl rfl rfl
  · exact json_write_open_read f fs _ hw rfl rfl rfl
  · exact json_write_open_read f fs _ hw rfl rfl rfl

/-- Witness for `json_roundtrip` at the value 42 on a concrete handle. -/
theorem json_roundtrip_witness :
    canOpenWrite ⟨[], []⟩ "f" = true ∧
    (PyVal.vint 42 ∈ [PyVal.vnone, PyVal.vint 42, PyVal.vstr "s",
      PyVal.vdict [("k", PyVal.vlist [PyVal.vint 1, PyVal.vint 2, PyVal.vint 3])]]) ∧
    ∃ fs1 f1, File.WriteAsJson ⟨"f", none⟩ (PyVal.vint 42) ⟨[], []⟩ =
        (.ok ⟨"f", none⟩, fs1) ∧
      File.Open ⟨"f", none⟩ fs1 = .ok (f1, []) ∧
      (File.ReadAsJson f1 fs1).1 = .ok (PyVal.vint 42) :=
  ⟨rfl, by simp,
    json_roundtrip ⟨"f", none⟩ ⟨[], []⟩ rfl (PyVal.vint 42) (by simp)⟩

/-- C6 (corrected): for a path with a nonempty, well-formed directory
component (no file occupies the component or its chain, the normalized
chain lists the component itself, and the path itself is neither an
existing directory nor one of the chain entries), `Create()` creates the
directory chain and then an empty file exactly when none is present,
`Exists()` is true immediately afterwards, and a second `Create()` returns
the same state without raising and without touching the content; but for a
path with an empty directory component — a bare filename — `Create()`
raises `FileNotFoundError` out of `os.makedirs("")` instead. -/
theorem create_contract (f : File) (fs : FS)
    (hne : (dirOf f.Path == "") = false)
    (hnd : fs.files.lookup (dirOf f.Path) = none)
    (hchain : ((dirChain (dirOf f.Path)).all
      fun a => (fs.files.lookup a).isNone) = true)
    (hpd : fs.dirs.contains f.Path = false)
    (hpc : (dirChain (dirOf f.Path)).contains f.Path = false)
    (hnorm : (dirChain (dirOf f.Path)).contains (dirOf f.Path) = true) :
    ∃ fs1, File.Create f fs = .ok (f, fs1) ∧
      File.Exists f fs1 = true ∧
      File.Create f fs1 = .ok (f, fs1) ∧
      (fs.files.lookup f.Path = none → fs1.files.lookup f.Path = some "") ∧
      (∀ c, fs.files.lookup f.Path = some c → fs1.files.lookup f.Path = some c) := by
  have hne' : ¬ dirOf f.Path = "" := by simpa using hne
  have hpd' : f.Path ∉ fs.dirs := by simpa using hpd
  have hpc' : f.Path ∉ dirChain (dirOf f.Path) := by simpa using hpc
  have hdn : dirOf f.Path ∈ dirChain (dirOf f.Path) := by simpa using hnorm
  cases hdirs : fs.dirs.contains (dirOf f.Path) with
  | true =>
    have hdirs' : dirOf f.Path ∈ fs.dirs := by simpa using hdirs
    have hm : makedirs fs (dirOf f.Path) = .ok fs := by
      simp [makedirs, hne', hdirs']
    cases hlook : fs.files.lookup f.Path with
    | none =>
      have hex : osPathExists fs f.Path = false := by
        simp [osPathExists, hlook, hpd']
      refine ⟨setFile fs f.Path "", ?_, ?_, ?_, ?_, ?_⟩
      · simp [File.Create, hm, hex]
      · simp [File.Exists, osPathExists, lookup_setFile]
      · have hm2 : makedirs (setFile fs f.Path "") (dirOf f.Path) =
            .ok (setFile fs f.Path "") := by
          simp [makedirs, hne', dirs_setFile, hdirs']
        have hex2 : osPathExists (setFile fs f.Path "") f.Path = true := by
          simp [osPathExists, lookup_setFile]
        simp [File.Create, hm2, hex2]
      · intro _
        exact lookup_setFile fs f.Path ""
      · intro c hc
        exact Option.noConfusion hc
    | some c0 =>
      have hex : osPathExists fs f.Path = true := by
        simp [osPathExists, hlook]
      refine ⟨fs, ?_, ?_, ?_, ?_, ?_⟩
      · simp [File.Create, hm, hex]
      · simp [File.Exists, hex]
      · simp [File.Create, hm, hex]
      · intro h
        exact Option.noConfusion h
      · intro c hc
        exact hlook.trans hc
  | false =>
    have hdirs' : dirOf f.Path ∉ fs.dirs := by simpa using hdirs
    have hany : ((dirChain (dirOf f.Path)).any
        fun a => (fs.files.lookup a).isSome) = false := by
      rw [Bool.eq_false_iff]
      intro hA
      rw [List.any_eq_true] at hA
      obtain ⟨a, ha, hsome⟩ := hA
      simp only [List.all_eq_true] at hchain
      have hn := hchain a ha
      rw [Option.isNone_iff_eq_none] at hn
      rw [hn] at hsome
      simp at hsome
    have hm : makedirs fs (dirOf f.Path) =
        .ok ⟨fs.files, dirChain (dirOf f.Path) ++ fs.dirs⟩ := by
      simp [makedirs, hne', hdirs', hnd, hany]
    have hmem : f.Path ∉ dirChain (dirOf f.Path) ++ fs.dirs := by
      simp [List.mem_append, hpc', hpd']
    have hdmem : dirOf f.Path ∈ dirChain (dirOf f.Path) ++ fs.dirs := by
      simp [List.mem_append, hdn]
    cases hlook : fs.files.lookup f.Path with
    | none =>
      have hex : osPathExists ⟨fs.files, dirChain (dirOf f.Path) ++ fs.dirs⟩
          f.Path = false := by
        simp [osPathExists, hlook, hmem]
      refine ⟨setFile ⟨fs.files, dirChain (dirOf f.Path) ++ fs.dirs⟩ f.Path "",
        ?_, ?_, ?_, ?_, ?_⟩
      · simp [File.Create, hm, hex]
      · simp [File.Exists, osPathExists, lookup_setFile]
      · have hm2 : makedirs
            (setFile ⟨fs.files, dirChain (dirOf f.Path) ++ fs.dirs⟩ f.Path "")
            (dirOf f.Path) =
            .ok (setFile ⟨fs.files, dirChain (dirOf f.Path) ++ fs.dirs⟩ f.Path "") := by
          simp [makedirs, hne', dirs_setFile, hdmem]
        have hex2 : osPathExists
            (setFile ⟨fs.files, dirChain (dirOf f.Path) ++ fs.dirs⟩ f.Path "")
            f.Path = true := by
          simp [osPathExists, lookup_setFile]
        simp [File.Create, hm2, hex2]
      · intro _
        exact lookup_setFile _ f.Path ""
      · intro c hc
        exact Option.noConfusion hc
    | some c0 =>
      have hex : osPathExists ⟨fs.files, dirChain (dirOf f.Path) ++ fs.dirs⟩
          f.Path = true := by
        simp [osPathExists, hlook]
      refine ⟨⟨fs.files, dirChain (dirOf f.Path) ++ fs.dirs⟩, ?_, ?_, ?_, ?_, ?_⟩
      · simp [File.Create, hm, hex]
      · simp [File.Exists, hex]
      · have hm2 : makedirs (⟨fs.files, dirChain (dirOf f.Path) ++ fs.dirs⟩ : FS)
            (dirOf f.Path) = .ok ⟨fs.files, dirChain (dirOf f.Path) ++ fs.dirs⟩ := by
          simp [makedirs, hne', hdmem]
        simp [File.Create, hm2, hex]
      · intro h
        exact Option.noConfusion h
      · intro c hc
        exact hlook.trans hc

/-- C6 counterexample: for the bare filename "a.txt" the directory
component is empty and `Create()` raises `FileNotFoundError` instead of
creating the file. -/
theorem create_claim_counterexample :
    File.Create ⟨"a.txt", none⟩ ⟨[], []⟩ = .error .fileNotFoundError := by
  rfl

/-- Witness for `create_contract` at the concrete path "a/b.txt" on an
empty filesystem. -/
theorem create_contract_witness :
    (dirOf "a/b.txt" == "") = false ∧
    (⟨[], []⟩ : FS).files.lookup (dirOf "a/b.txt") = none ∧
    ((dirChain (dirOf "a/b.txt")).all
      fun a => (((⟨[], []⟩ : FS).files.lookup a)).isNone) = true ∧
    (⟨[], []⟩ : FS).dirs.contains "a/b.txt" = false ∧
    (dirChain (dirOf "a/b.txt")).contains "a/b.txt" = false ∧
    (dirChain (dirOf "a/b.txt")).contains (dirOf "a/b.txt") = true ∧
    ∃ fs1, File.Create ⟨"a/b.txt", none⟩ ⟨[], []⟩ = .ok (⟨"a/b.txt", none⟩, fs1) ∧
      File.Exists ⟨"a/b.txt", none⟩ fs1 = true ∧
      File.Create ⟨"a/b.txt", none⟩ fs1 = .ok (⟨"a/b.txt", none⟩, fs1) ∧
      ((⟨[], []⟩ : FS).files.lookup "a/b.txt" = none →
        fs1.files.lookup "a/b.txt" = some "") ∧
      (∀ c, (⟨[], []⟩ : FS).files.lookup "a/b.txt" = some c →
        fs1.files.lookup "a/b.txt" = some c) :=
  ⟨rfl, rfl, rfl, rfl, rfl, rfl,
    create_contract ⟨"a/b.txt", none⟩ ⟨[], []⟩ rfl rfl rfl rfl rfl rfl⟩
